import Mathlib

/-!
Shallow embedding of the mealbot meal-logging core
(`app/services/services.py` and `app/api/routes.py`).

Modelling conventions:
* Python floats are modelled as exact rationals (`ℚ`); Python `int()` applied
  to a float truncates toward zero and is modelled by `pyInt`.
* A SQLAlchemy session is modelled as an explicit in-memory database value
  (`DB`) holding the four tables as lists in insertion order; queries with
  `.first()` become `List.find?`, `.all()` with a filter becomes
  `List.filter`, inserts append to the list.
* Wall-clock timestamps (`datetime.now()`) are an explicit rational parameter
  `now` measured in minutes; the calendar date of a row
  (`func.date(logged_at)`) is carried alongside as an integer `logged_date`
  set from the explicit parameter `today` at insertion time.
* `difflib.SequenceMatcher(None, a, b).ratio()` is an external library
  function; the resolver is parametrised over an arbitrary similarity
  function `ratio : String → String → ℚ`, so every theorem below holds for
  the actual difflib ratio in particular.
* SQL `ilike` without wildcard characters is case-insensitive equality and is
  modelled by comparing `String.toLower` images; SQL `==` on strings is exact
  equality.
* Nullable text columns and optional profile fields are `Option String`;
  Python truthiness of a string (`if s:`) is `s` being present and nonempty.
-/

/-- Floor of a rational as an integer, via flooring integer division. -/
def floorQ (q : ℚ) : Int := Int.fdiv q.num (q.den : Int)

/-- Python `int()` on a float: truncation toward zero. -/
def pyInt (q : ℚ) : Int := if 0 ≤ q then floorQ q else -(floorQ (-q))

/-- Test that `needle` is a prefix of `hay` (on character lists). -/
def hasPrefixChars : List Char → List Char → Bool
  | _, [] => true
  | [], _ :: _ => false
  | a :: as, b :: bs => a == b && hasPrefixChars as bs

/-- Test that `needle` occurs contiguously inside `hay` (on character lists). -/
def hasSubChars : List Char → List Char → Bool
  | [], needle => needle.isEmpty
  | a :: t, needle => hasPrefixChars (a :: t) needle || hasSubChars t needle

/-- Python substring test `needle in hay`. -/
def strContains (hay needle : String) : Bool :=
  hasSubChars hay.toList needle.toList

/-- Row of the `food_database` table (`app/models/food_database.py`). -/
structure FoodRecord where
  food_name : String
  serving_size : Int
  serving_unit : String
  serving_description : String
  default_calories : Int
  protein_g : ℚ
  carbs_g : ℚ
  fats_g : ℚ
  category : String
  aliases : Option String
deriving DecidableEq

/-- Row of the `users` table (`app/models/user.py`). -/
structure UserRec where
  id : Int
  name : String
  age : Int
  weight : ℚ
  height : ℚ
  diet_type : Option String
  goal : Option String
  phone_number : Option String
  allergies : Option String
  preferences : Option String
deriving DecidableEq

/-- Row of the `food_logs` table (`app/models/food_log.py`).  `logged_at` is
the insertion timestamp in minutes, `logged_date` its calendar date. -/
structure FoodLogRec where
  user_id : Int
  meal_type : String
  food_name : String
  calories : Int
  protein_g : ℚ
  carbs_g : ℚ
  fats_g : ℚ
  logged_at : ℚ
  logged_date : Int
deriving DecidableEq

/-- Row of the `daily_summaries` table (`app/models/daily_summary.py`). -/
structure DailySummaryRec where
  user_id : Int
  date : Int
  target_calories : Int
  consumed_calories : Int
  remaining_calories : Int
  total_protein_g : ℚ
  total_carbs_g : ℚ
  total_fats_g : ℚ
  meals_logged : Nat
deriving DecidableEq

/-- The database state: the four tables, rows in insertion order. -/
structure DB where
  users : List UserRec
  foods : List FoodRecord
  food_logs : List FoodLogRec
  summaries : List DailySummaryRec
deriving DecidableEq

/-- Pydantic `UserProfile` schema (`app/schemas/schemas.py`). -/
structure UserProfile where
  id : Option Int
  name : String
  age : Int
  weight : ℚ
  height : ℚ
  diet_type : Option String
  goal : Option String
  allergies : Option (List String)
  preferences : Option String
  phone_number : Option String
deriving DecidableEq

/-- Result of `calculate_daily_calories`: the per-slot dict. -/
structure CalorieSplit where
  breakfast : Int
  morning_snack : Int
  lunch : Int
  afternoon_snack : Int
  dinner : Int
  evening_snack : Int
  total : Int
deriving DecidableEq

/-- Source `calculate_daily_calories` (services.py, line 14).  The Python function
receives `user.goal`, which is a nullable column; comparing `None` with a
string literal is `False`, so a missing goal behaves like the empty string
and the call sites pass `goal.getD ""`. -/
def calculate_daily_calories (goal : String) : CalorieSplit :=
  if goal == "weight_loss" then
    ⟨350, 150, 500, 150, 500, 150, 1800⟩
  else if goal == "muscle_gain" then
    ⟨500, 200, 700, 200, 650, 250, 2500⟩
  else
    ⟨400, 150, 600, 150, 600, 300, 2200⟩

/-- Source `validate_meal_input` (services.py, line 173). -/
def valid_meal_types : List String :=
  ["breakfast", "morning_snack", "lunch", "afternoon_snack", "dinner",
   "evening_snack"]

def validate_meal_input (user_id : Int) (meal_type : String)
    (food_name : String) : Bool × String :=
  if user_id ≤ 0 then
    (false, "Invalid user ID")
  else if !(valid_meal_types.contains meal_type) then
    (false, "Invalid meal type")
  else if food_name.length < 2 then
    (false, "Food name must be at least 2 characters")
  else
    (true, "Valid")

/-- Source `prevent_duplicate_log` (services.py, line 160): is there a ledger row for
this user and food name with `logged_at` inside the trailing window? -/
def prevent_duplicate_log (db : DB) (user_id : Int) (food_name : String)
    (now : ℚ) (minutes : ℚ) : Bool :=
  let cutoff := now - minutes
  (db.food_logs.find? (fun l =>
    l.user_id == user_id && l.food_name == food_name &&
      decide (cutoff < l.logged_at))).isSome

/-- Alias test inside `fuzzy_search_food` (services.py, lines 202..205):
`food.aliases` must be truthy, then the lowered stripped semicolon-separated
tokens are compared for membership. -/
def aliasHit (f : FoodRecord) (fl : String) : Bool :=
  match f.aliases with
  | none => false
  | some s => s != "" &&
      (((s.splitOn ";").map (fun a => a.trim.toLower)).contains fl)

/-- The similarity-scoring loop of `fuzzy_search_food` (services.py, lines
207..214): running best match and best ratio, updated when the ratio strictly
beats both the running best and the 0.6 threshold. -/
def fuzzyLoop (ratio : String → String → ℚ) (fl : String) :
    List FoodRecord → Option FoodRecord → ℚ → Option FoodRecord × ℚ
  | [], best, bestR => (best, bestR)
  | f :: rest, best, bestR =>
    let r := ratio fl f.food_name.toLower
    if bestR < r ∧ (3 : ℚ)/5 < r then
      fuzzyLoop ratio fl rest (some f) r
    else
      fuzzyLoop ratio fl rest best bestR

/-- Source `fuzzy_search_food` (services.py, line 189), parametrised over the
similarity function standing for `SequenceMatcher(...).ratio()`. -/
def fuzzy_search_food (ratio : String → String → ℚ) (foods : List FoodRecord)
    (food_name : String) : Option FoodRecord :=
  let fl := food_name.toLower.trim
  match foods.find? (fun f => f.food_name.toLower == fl) with
  | some f => some f
  | none =>
    match foods.find? (fun f => aliasHit f fl) with
    | some f => some f
    | none => (fuzzyLoop ratio fl foods none 0).1

/-- Source `get_remaining_calories` (services.py, line 219). -/
def get_remaining_calories (db : DB) (user_id : Int) (date_obj : Int) : Int :=
  match db.users.find? (fun u => u.id == user_id) with
  | none => 0
  | some user =>
    let targets := calculate_daily_calories (user.goal.getD "")
    let consumed := ((db.food_logs.filter (fun l =>
      l.user_id == user_id && l.logged_date == date_obj)).map
        (fun l => l.calories)).sum
    targets.total - consumed

/-- Source `get_consumed_today` (services.py, line 234). -/
def get_consumed_today (db : DB) (user_id : Int) (today : Int) : Int :=
  ((db.food_logs.filter (fun l =>
    l.user_id == user_id && l.logged_date == today)).map
      (fun l => l.calories)).sum

/-- Source `handle_meal_response` (services.py, line 244). -/
def handle_meal_response (consumed target : Int) : String :=
  let remaining := target - consumed
  if remaining < 0 then
    let over_by := -remaining
    if over_by ≤ 100 then
      s!"You\x27re {over_by} cal over. Light snack next time!"
    else
      s!"You\x27re {over_by} cal over. Tomorrow\x27s a new day!"
  else if 500 < remaining then
    s!"Great start! You have {remaining} cal left. Keep going!"
  else if 200 < remaining then
    s!"Nice! You have {remaining} cal left. Consider a snack."
  else
    s!"Almost there! {remaining} cal remaining."

/-- The static cross-unit conversion table of `convert_to_serving_multiplier`
(services.py, lines 277..282), as an association list in the source's
insertion order (Python dicts iterate in insertion order). -/
def conversions : List ((String × String) × List (String × ℚ)) :=
  [(("cup", "grams"), [("oatmeal", 50), ("rice", 200), ("dal", 200)]),
   (("tbsp", "grams"), [("peanut_butter", 16), ("honey", 20)]),
   (("piece", "grams"), [("almonds", 6/5), ("samosa", 100), ("idli", 60)]),
   (("bowl", "grams"), [("biryani", 400), ("curry", 200), ("dal", 200)])]

/-- Source `convert_to_serving_multiplier` (services.py, line 262).  Returns `none`
for the Python `return None` ("unsupported") outcome. -/
def convert_to_serving_multiplier (quantity : ℚ) (user_unit : String)
    (food_serving_size : Int) (food_serving_unit : String)
    (food_name : String) : Option ℚ :=
  if user_unit == "serving" then
    some quantity
  else if user_unit == "grams" && food_serving_unit == "grams" then
    some (quantity / (food_serving_size : ℚ))
  else if user_unit == "ml" && food_serving_unit == "ml" then
    some (quantity / (food_serving_size : ℚ))
  else if user_unit == food_serving_unit then
    some (quantity / (food_serving_size : ℚ))
  else
    match conversions.find? (fun e =>
        e.1 == (user_unit, food_serving_unit)) with
    | some e =>
      match e.2.find? (fun p => strContains food_name.toLower p.1) with
      | some p => some (quantity * p.2 / (food_serving_size : ℚ))
      | none => none
    | none => none

/-- The converter exactly as `log_meal` invokes it (routes.py, lines
200..206): user unit and the food's reference unit are lowercased, and the
food's canonical name is passed along. -/
def convertUnit (quantity : ℚ) (unit : String) (f : FoodRecord) : Option ℚ :=
  convert_to_serving_multiplier quantity unit.toLower f.serving_size
    f.serving_unit.toLower f.food_name

/-- Success payload of the `/log-meal` endpoint (routes.py, lines 255..268),
restricted to the computed fields. -/
structure LogMealOk where
  food : String
  actual_calories : Int
  actual_protein : ℚ
  actual_carbs : ℚ
  actual_fats : ℚ
  meal_type : String
  consumed_total : Int
  remaining : Int
  message : String
deriving DecidableEq

/-- Outcome of the `/log-meal` endpoint: the success payload or one of the
structured rejections the route returns (routes.py). -/
inductive LogMealResult where
  | ok (r : LogMealOk)
  | invalidInput (msg : String)
  | invalidQuantity
  | missingUnit
  | userNotFound
  | duplicate (food_name : String)
  | foodNotFound (food_name : String)
  | unsupportedUnit (unit : String) (hint : String)
deriving DecidableEq

/-- Source `log_meal` (routes.py, line 121): the full composite logging operation,
returning the outcome and the post-state. -/
def log_meal (ratio : String → String → ℚ) (db : DB) (now : ℚ) (today : Int)
    (user_id : Int) (meal_type : String) (food_name : String) (quantity : ℚ)
    (unit : String) : LogMealResult × DB :=
  let v := validate_meal_input user_id meal_type food_name
  if !v.1 then
    (.invalidInput v.2, db)
  else if quantity ≤ 0 then
    (.invalidQuantity, db)
  else if unit == "" then
    (.missingUnit, db)
  else
    match db.users.find? (fun u => u.id == user_id) with
    | none => (.userNotFound, db)
    | some user =>
      if prevent_duplicate_log db user_id food_name now 5 then
        (.duplicate food_name, db)
      else
        match fuzzy_search_food ratio db.foods food_name with
        | none => (.foodNotFound food_name, db)
        | some food =>
          match convertUnit quantity unit food with
          | none => (.unsupportedUnit unit food.serving_unit, db)
          | some m =>
            let actual_calories := pyInt ((food.default_calories : ℚ) * m)
            let actual_protein :=
              if food.protein_g != 0 then food.protein_g * m else 0
            let actual_carbs :=
              if food.carbs_g != 0 then food.carbs_g * m else 0
            let actual_fats :=
              if food.fats_g != 0 then food.fats_g * m else 0
            let entry : FoodLogRec :=
              { user_id := user_id, meal_type := meal_type,
                food_name := food.food_name, calories := actual_calories,
                protein_g := actual_protein, carbs_g := actual_carbs,
                fats_g := actual_fats, logged_at := now,
                logged_date := today }
            let db2 : DB := { db with food_logs := db.food_logs ++ [entry] }
            let remaining := get_remaining_calories db2 user_id today
            let consumed := get_consumed_today db2 user_id today
            let target := (calculate_daily_calories (user.goal.getD "")).total
            ( .ok { food := food.food_name,
                    actual_calories := actual_calories,
                    actual_protein := actual_protein,
                    actual_carbs := actual_carbs,
                    actual_fats := actual_fats,
                    meal_type := meal_type,
                    consumed_total := consumed,
                    remaining := remaining,
                    message := handle_meal_response consumed target },
              db2 )

/-- The log rows of one user on one calendar day, in ledger order
(the query in services.py, lines 341..344). -/
def dayLogs (db : DB) (user_id : Int) (date_obj : Int) : List FoodLogRec :=
  db.food_logs.filter (fun l =>
    l.user_id == user_id && l.logged_date == date_obj)

/-- Source `create_or_update_daily_summary` (services.py, line 326): fold today's
ledger rows and upsert the summary row keyed by (user, date). -/
def create_or_update_daily_summary (db : DB) (user_id : Int)
    (date_obj : Int) : Option DailySummaryRec × DB :=
  match db.users.find? (fun u => u.id == user_id) with
  | none => (none, db)
  | some user =>
    let targets := calculate_daily_calories (user.goal.getD "")
    let logs := dayLogs db user_id date_obj
    let consumed := (logs.map (fun l => l.calories)).sum
    let protein := (logs.map (fun l => l.protein_g)).sum
    let carbs := (logs.map (fun l => l.carbs_g)).sum
    let fats := (logs.map (fun l => l.fats_g)).sum
    match db.summaries.find? (fun s =>
        s.user_id == user_id && s.date == date_obj) with
    | some s =>
      let s2 : DailySummaryRec :=
        { s with consumed_calories := consumed,
                 remaining_calories := targets.total - consumed,
                 total_protein_g := protein,
                 total_carbs_g := carbs,
                 total_fats_g := fats,
                 meals_logged := logs.length }
      ( some s2,
        { db with summaries := db.summaries.map (fun t =>
            if t.user_id == user_id && t.date == date_obj then s2 else t) } )
    | none =>
      let s2 : DailySummaryRec :=
        { user_id := user_id, date := date_obj,
          target_calories := targets.total,
          consumed_calories := consumed,
          remaining_calories := targets.total - consumed,
          total_protein_g := protein,
          total_carbs_g := carbs,
          total_fats_g := fats,
          meals_logged := logs.length }
      (some s2, { db with summaries := db.summaries ++ [s2] })

/-- Fresh primary key for an autoincrement insert. -/
def nextUserId (db : DB) : Int :=
  (db.users.map (fun u => u.id)).foldr max 0 + 1

/-- Outcome of the `/register-user` endpoint (routes.py, line 40). -/
inductive RegisterResult where
  | existing (user_id : Int) (name : String)
  | created (user_id : Int) (name : String)
deriving DecidableEq

def regId : RegisterResult → Int
  | .existing i _ => i
  | .created i _ => i

def regName : RegisterResult → String
  | .existing _ n => n
  | .created _ n => n

/-- Source `register_user` (routes.py, line 40): look up by the profile's external
(Telegram) id; create the row with that id when absent.  A profile with no
id never matches an existing row (SQL `id = NULL`) and is inserted with a
fresh autoincrement key. -/
def register_user (db : DB) (p : UserProfile) : RegisterResult × DB :=
  match db.users.find? (fun u =>
      match p.id with | some i => u.id == i | none => false) with
  | some u => (.existing u.id u.name, db)
  | none =>
    let uid := match p.id with | some i => i | none => nextUserId db
    let u : UserRec :=
      { id := uid, name := p.name, age := p.age, weight := p.weight,
        height := p.height,
        diet_type := some (match p.diet_type with
          | some d => if d == "" then "non-veg" else d
          | none => "non-veg"),
        goal := some (match p.goal with
          | some g => if g == "" then "maintenance" else g
          | none => "maintenance"),
        phone_number := none, allergies := none, preferences := none }
    (.created uid u.name, { db with users := db.users ++ [u] })

/-- Source `create_or_get_user` (services.py, line 104): look up by phone number
when the profile carries a truthy one; otherwise insert a new row. -/
def create_or_get_user (db : DB) (p : UserProfile) : UserRec × DB :=
  let existing : Option UserRec :=
    match p.phone_number with
    | some ph =>
      if ph == "" then none
      else db.users.find? (fun u => u.phone_number == some ph)
    | none => none
  match existing with
  | some u => (u, db)
  | none =>
    let u : UserRec :=
      { id := nextUserId db, name := p.name, age := p.age,
        weight := p.weight, height := p.height,
        diet_type := p.diet_type, goal := p.goal,
        phone_number := p.phone_number,
        allergies := match p.allergies with
          | some l => if l == [] then none
                      else some (String.intercalate "," l)
          | none => none,
        preferences := p.preferences }
    (u, { db with users := db.users ++ [u] })

/-- The round-half-up rule exactly as the spec sentence states it
("truncate any fractional calorie by rounding ... standard round-half rule";
a fractional part of 0.5 or more rounds to the next integer up).  This
definition follows the spec wording and is compared against the code. -/
def specRound (q : ℚ) : Int := floorQ (q + 1/2)

/-- The running maximum of the similarity loop, folded from the right with an
explicit starting value (`best_ratio = 0` in the source). -/
def bestRatioOf (ratio : String → String → ℚ) (fl : String)
    (foods : List FoodRecord) (b : ℚ) : ℚ :=
  foods.foldr (fun f a => max (ratio fl f.food_name.toLower) a) b

/-- The calories of a success outcome, if any. -/
def okCalories : LogMealResult → Option Int
  | .ok r => some r.actual_calories
  | _ => none

/-- The resolved canonical food name of a success outcome, if any. -/
def okFoodName : LogMealResult → Option String
  | .ok r => some r.food
  | _ => none

/-! Concrete data used by witnesses and counterexamples. -/

def ratioZero : String → String → ℚ := fun _ _ => 0

def oatmealFood : FoodRecord :=
  { food_name := "Oatmeal", serving_size := 30, serving_unit := "grams",
    serving_description := "1 bowl", default_calories := 165, protein_g := 6,
    carbs_g := 27, fats_g := 3, category := "breakfast",
    aliases := some "oats;porridge" }

def biryaniFood : FoodRecord :=
  { food_name := "Biryani", serving_size := 400, serving_unit := "grams",
    serving_description := "1 bowl", default_calories := 600,
    protein_g := 20, carbs_g := 80, fats_g := 15, category := "lunch",
    aliases := none }

def almondsFood : FoodRecord :=
  { food_name := "Almonds", serving_size := 30, serving_unit := "grams",
    serving_description := "30g", default_calories := 170, protein_g := 6,
    carbs_g := 6, fats_g := 15, category := "morning_snack", aliases := none }

def riceFood : FoodRecord :=
  { food_name := "Rice", serving_size := 100, serving_unit := "grams",
    serving_description := "100g", default_calories := 130, protein_g := 0,
    carbs_g := 0, fats_g := 0, category := "lunch", aliases := none }

/-- A food record whose reference serving unit is the literal token
"serving" with a serving size other than 1. -/
def c4Food : FoodRecord :=
  { food_name := "Trail Mix", serving_size := 2, serving_unit := "serving",
    serving_description := "2 scoops", default_calories := 100,
    protein_g := 0, carbs_g := 0, fats_g := 0, category := "lunch",
    aliases := none }

def demoUser : UserRec :=
  { id := 1, name := "Asha", age := 30, weight := 60, height := 165,
    diet_type := some "veg", goal := some "maintenance",
    phone_number := none, allergies := none, preferences := none }

def mgUser : UserRec :=
  { id := 1, name := "Ravi", age := 28, weight := 75, height := 180,
    diet_type := some "non-veg", goal := some "muscle_gain",
    phone_number := none, allergies := none, preferences := none }

def dbC1 : DB :=
  { users := [demoUser], foods := [oatmealFood], food_logs := [],
    summaries := [] }

def dbBiryani : DB :=
  { users := [demoUser], foods := [biryaniFood], food_logs := [],
    summaries := [] }

def dbRice : DB :=
  { users := [demoUser], foods := [riceFood], food_logs := [],
    summaries := [] }

/-- A ledger row for user 1 and food "Biryani" logged at time 0. -/
def oldBiryaniLog : FoodLogRec :=
  { user_id := 1, meal_type := "lunch", food_name := "Biryani",
    calories := 600, protein_g := 20, carbs_g := 80, fats_g := 15,
    logged_at := 0, logged_date := 0 }

/-- A state holding a fresh ledger row for user 1 but no user row at all. -/
def dbC8 : DB :=
  { users := [], foods := [biryaniFood], food_logs := [oldBiryaniLog],
    summaries := [] }

def logC10 : FoodLogRec :=
  { user_id := 1, meal_type := "lunch", food_name := "Rice",
    calories := 100, protein_g := 0, carbs_g := 0, fats_g := 0,
    logged_at := 0, logged_date := 0 }

/-- A summary row created while the user's goal was "weight_loss"
(target 1800), before the goal changed to "muscle_gain". -/
def staleSummary : DailySummaryRec :=
  { user_id := 1, date := 0, target_calories := 1800,
    consumed_calories := 0, remaining_calories := 1800,
    total_protein_g := 0, total_carbs_g := 0, total_fats_g := 0,
    meals_logged := 0 }

def dbC10 : DB :=
  { users := [mgUser], foods := [riceFood], food_logs := [logC10],
    summaries := [staleSummary] }

/-- Payload of the successful 15-grams-of-Oatmeal log. -/
def payC1 : LogMealOk :=
  { food := "Oatmeal", actual_calories := 82, actual_protein := 3,
    actual_carbs := 27/2, actual_fats := 3/2, meal_type := "breakfast",
    consumed_total := 82, remaining := 2118,
    message := "Great start! You have 2118 cal left. Keep going!" }

/-- Ledger row appended by the successful 15-grams-of-Oatmeal log. -/
def entryC1 : FoodLogRec :=
  { user_id := 1, meal_type := "breakfast", food_name := "Oatmeal",
    calories := 82, protein_g := 3, carbs_g := 27/2, fats_g := 3/2,
    logged_at := 0, logged_date := 0 }

def db1C1 : DB :=
  { users := [demoUser], foods := [oatmealFood], food_logs := [entryC1],
    summaries := [] }

/-- First call of the C3 counterexample: user 1 logs "oats" (an alias of
"Oatmeal") at time 0. -/
def c3run1 : LogMealResult × DB :=
  log_meal ratioZero dbC1 0 0 1 "breakfast" "oats" 1 "serving"

/-- Second call of the C3 counterexample: the same user logs the same input
"oats" one minute later, inside the 5-minute window. -/
def c3run2 : LogMealResult × DB :=
  log_meal ratioZero c3run1.2 1 0 1 "breakfast" "oats" 1 "serving"

/-- Payload of the successful 1-serving-of-Biryani log. -/
def payB : LogMealOk :=
  { food := "Biryani", actual_calories := 600, actual_protein := 20,
    actual_carbs := 80, actual_fats := 15, meal_type := "lunch",
    consumed_total := 600, remaining := 1600,
    message := "Great start! You have 1600 cal left. Keep going!" }

def entryB : FoodLogRec :=
  { user_id := 1, meal_type := "lunch", food_name := "Biryani",
    calories := 600, protein_g := 20, carbs_g := 80, fats_g := 15,
    logged_at := 0, logged_date := 0 }

def db1B : DB :=
  { users := [demoUser], foods := [biryaniFood], food_logs := [entryB],
    summaries := [] }

/-- A state whose only matching ledger row is ten minutes old. -/
def dbOldB : DB :=
  { users := [demoUser], foods := [biryaniFood],
    food_logs := [oldBiryaniLog], summaries := [] }

def dbEmpty : DB :=
  { users := [], foods := [], food_logs := [], summaries := [] }

def profA : UserProfile :=
  { id := some 7, name := "Kiran", age := 25, weight := 60, height := 170,
    diet_type := none, goal := none, allergies := none, preferences := none,
    phone_number := none }

def userA : UserRec :=
  { id := 7, name := "Kiran", age := 25, weight := 60, height := 170,
    diet_type := some "non-veg", goal := some "maintenance",
    phone_number := none, allergies := none, preferences := none }

def dbA1 : DB :=
  { users := [userA], foods := [], food_logs := [], summaries := [] }

def profB : UserProfile :=
  { id := none, name := "Mina", age := 32, weight := 55, height := 160,
    diet_type := some "veg", goal := some "weight_loss", allergies := none,
    preferences := none, phone_number := some "9999" }

def userB : UserRec :=
  { id := 1, name := "Mina", age := 32, weight := 55, height := 160,
    diet_type := some "veg", goal := some "weight_loss",
    phone_number := some "9999", allergies := none, preferences := none }

def dbB1 : DB :=
  { users := [userB], foods := [], food_logs := [], summaries := [] }

/-- The summary row after recomputation on `dbC10`: the stored creation-time
target (1800) is kept while remaining is recomputed from the current
muscle-gain goal (2500 − 100 = 2400). -/
def s1C10 : DailySummaryRec :=
  { user_id := 1, date := 0, target_calories := 1800,
    consumed_calories := 100, remaining_calories := 2400,
    total_protein_g := 0, total_carbs_g := 0, total_fats_g := 0,
    meals_logged := 1 }

/-- A similarity function used to exercise the fuzzy tier: it scores the
pair ("oatmel", "oatmeal") at 0.7 and everything else at 0. -/
def ratioDemo : String → String → ℚ :=
  fun a b => if a == "oatmel" && b == "oatmeal" then 7/10 else 0

/-! Helper lemmas shared by the claim theorems. -/

/-- When the user unit string equals the reference unit string and is not the
literal "serving", every branch of the converter that can fire yields
`quantity / serving_size`. -/
lemma convert_matching_unit (q : ℚ) (su : String) (size : Int) (name : String)
    (hne : su ≠ "serving") :
    convert_to_serving_multiplier q su size su name = some (q / (size : ℚ)) := by
  unfold convert_to_serving_multiplier
  have e1 : (su == "serving") = false := by simp [hne]
  by_cases h1 : su = "grams"
  · subst h1; simp
  · by_cases h2 : su = "ml"
    · subst h2; simp
    · simp [e1, h1, h2]

/-- Everything a successful `log_meal` run tells us: every guard passed, and
the post-state appends exactly one ledger row carrying the resolved
canonical name and the truncated calorie product. -/
lemma log_meal_ok_inv {ratio : String → String → ℚ} {db : DB} {now : ℚ}
    {today : Int} {uid : Int} {mt fname : String} {q : ℚ} {unit : String}
    {r : LogMealOk} {db2 : DB}
    (h : log_meal ratio db now today uid mt fname q unit = (.ok r, db2)) :
    (validate_meal_input uid mt fname).1 = true ∧ ¬ q ≤ 0 ∧ unit ≠ "" ∧
    ∃ usr food m,
      db.users.find? (fun u => u.id == uid) = some usr ∧
      prevent_duplicate_log db uid fname now 5 = false ∧
      fuzzy_search_food ratio db.foods fname = some food ∧
      convertUnit q unit food = some m ∧
      r.food = food.food_name ∧
      r.actual_calories = pyInt ((food.default_calories : ℚ) * m) ∧
      db2 = { db with food_logs := db.food_logs ++
        [{ user_id := uid, meal_type := mt, food_name := food.food_name,
           calories := pyInt ((food.default_calories : ℚ) * m),
           protein_g := if food.protein_g != 0 then food.protein_g * m else 0,
           carbs_g := if food.carbs_g != 0 then food.carbs_g * m else 0,
           fats_g := if food.fats_g != 0 then food.fats_g * m else 0,
           logged_at := now, logged_date := today }] } := by
  unfold log_meal at h
  cases hb : (validate_meal_input uid mt fname).1 with
  | false => simp only [hb, Bool.not_false, if_true] at h; simp at h
  | true =>
    simp only [hb, Bool.not_true, Bool.false_eq_true, if_false] at h
    by_cases hq : q ≤ 0
    · simp [hq] at h
    · rw [if_neg hq] at h
      cases hu : (unit == "") with
      | true => rw [hu] at h; simp at h
      | false =>
        rw [hu] at h
        simp only [Bool.false_eq_true, if_false] at h
        cases hfind : db.users.find? (fun u => u.id == uid) with
        | none => rw [hfind] at h; simp at h
        | some usr =>
          rw [hfind] at h
          cases hdup : prevent_duplicate_log db uid fname now 5 with
          | true => rw [hdup] at h; simp at h
          | false =>
            rw [hdup] at h
            simp only [Bool.false_eq_true, if_false] at h
            cases hfood : fuzzy_search_food ratio db.foods fname with
            | none => rw [hfood] at h; simp at h
            | some food =>
              rw [hfood] at h
              dsimp only at h
              cases hconv : convertUnit q unit food with
              | none => rw [hconv] at h; simp at h
              | some m =>
                rw [hconv] at h
                simp only [Prod.mk.injEq, LogMealResult.ok.injEq] at h
                refine ⟨rfl, hq, fun hh => by simp [hh] at hu, usr, food, m,
                  rfl, rfl, rfl, hconv, ?_, ?_, ?_⟩
                · rw [← h.1]
                · rw [← h.1]
                · rw [← h.2]

/-- Forward evaluation of `log_meal` up to the user-existence check: when
that lookup fails, the call is rejected with the user-not-found outcome,
whatever the ledger holds. -/
lemma log_meal_user_missing {ratio : String → String → ℚ} {db : DB} {now : ℚ}
    {today : Int} {uid : Int} {mt fname : String} {q : ℚ} {unit : String}
    (hv : (validate_meal_input uid mt fname).1 = true) (hq : ¬ q ≤ 0)
    (hu : unit ≠ "")
    (hfind : db.users.find? (fun u => u.id == uid) = none) :
    log_meal ratio db now today uid mt fname q unit = (.userNotFound, db) := by
  unfold log_meal
  have hu2 : (unit == "") = false := by simp [hu]
  simp only [hv, Bool.not_true, Bool.false_eq_true, if_false, if_neg hq, hu2,
    hfind]

/-- Forward evaluation of `log_meal` up to the duplicate guard: when the user
exists and the guard fires, the call is rejected as a duplicate and the
state is unchanged. -/
lemma log_meal_duplicate {ratio : String → String → ℚ} {db : DB} {now : ℚ}
    {today : Int} {uid : Int} {mt fname : String} {q : ℚ} {unit : String}
    {usr : UserRec}
    (hv : (validate_meal_input uid mt fname).1 = true) (hq : ¬ q ≤ 0)
    (hu : unit ≠ "")
    (hfind : db.users.find? (fun u => u.id == uid) = some usr)
    (hdup : prevent_duplicate_log db uid fname now 5 = true) :
    log_meal ratio db now today uid mt fname q unit =
      (.duplicate fname, db) := by
  unfold log_meal
  have hu2 : (unit == "") = false := by simp [hu]
  simp only [hv, Bool.not_true, Bool.false_eq_true, if_false, if_neg hq, hu2,
    hfind, hdup, if_true]

/-- Forward evaluation of `log_meal` up to the unit conversion: when the food
resolves but no conversion rule applies, the call is rejected with the
unsupported-unit outcome carrying the food's reference unit, and the state
is unchanged. -/
lemma log_meal_unsupported {ratio : String → String → ℚ} {db : DB} {now : ℚ}
    {today : Int} {uid : Int} {mt fname : String} {q : ℚ} {unit : String}
    {usr : UserRec} {food : FoodRecord}
    (hv : (validate_meal_input uid mt fname).1 = true) (hq : ¬ q ≤ 0)
    (hu : unit ≠ "")
    (hfind : db.users.find? (fun u => u.id == uid) = some usr)
    (hdup : prevent_duplicate_log db uid fname now 5 = false)
    (hfuzzy : fuzzy_search_food ratio db.foods fname = some food)
    (hconv : convertUnit q unit food = none) :
    log_meal ratio db now today uid mt fname q unit =
      (.unsupportedUnit unit food.serving_unit, db) := by
  unfold log_meal
  have hu2 : (unit == "") = false := by simp [hu]
  simp only [hv, Bool.not_true, Bool.false_eq_true, if_false, if_neg hq, hu2,
    hfind, hdup, hfuzzy, hconv]

/-! ## C4 -/

/-- C4 (amended): for every food record and positive quantity, the converter
maps the literal "serving" unit to the quantity itself; and whenever the
user unit equals the reference serving unit case-insensitively AND that unit
is not the literal "serving" token (whose rule fires first and returns the
quantity), the converter returns quantity / servingSize. -/
theorem C4_serving_and_reference_unit :
    (∀ (f : FoodRecord) (q : ℚ), 0 < q → convertUnit q "serving" f = some q) ∧
    (∀ (f : FoodRecord) (q : ℚ) (u : String), 0 < q →
      u.toLower = f.serving_unit.toLower → u.toLower ≠ "serving" →
      convertUnit q u f = some (q / (f.serving_size : ℚ))) := by
  constructor
  · intro f q _
    unfold convertUnit convert_to_serving_multiplier
    rw [show "serving".toLower = "serving" from by with_unfolding_all rfl]
    simp
  · intro f q u _ hEq hne
    unfold convertUnit
    rw [hEq]
    exact convert_matching_unit q f.serving_unit.toLower f.serving_size
      f.food_name (hEq ▸ hne)

/-- C4 counterexample: a record whose reference serving unit is the literal
"serving" token with serving size 2.  The user unit "serving" equals the
reference unit case-insensitively, yet the converter returns the quantity
(rule 1), not quantity / servingSize as the claim states. -/
theorem C4_counterexample :
    "serving".toLower = c4Food.serving_unit.toLower ∧
    (0 : ℚ) < 1 ∧
    convertUnit 1 "serving" c4Food = some 1 ∧
    ¬ convertUnit 1 "serving" c4Food = some (1 / (c4Food.serving_size : ℚ)) := by
  refine ⟨by with_unfolding_all rfl, by norm_num,
    by with_unfolding_all rfl, ?_⟩
  rw [show convertUnit 1 "serving" c4Food = some 1 from
    by with_unfolding_all rfl]
  simp only [Option.some.injEq, c4Food]
  norm_num

/-- C4 witness: scenario-B style inputs on the real Biryani record. -/
theorem C4_witness :
    convertUnit 2 "serving" biryaniFood = some 2 ∧
    convertUnit 200 "grams" biryaniFood =
      some (200 / (biryaniFood.serving_size : ℚ)) ∧
    (200 / ((biryaniFood.serving_size : Int) : ℚ)) = 1/2 := by
  refine ⟨C4_serving_and_reference_unit.1 biryaniFood 2 (by norm_num),
    C4_serving_and_reference_unit.2 biryaniFood 200 "grams" (by norm_num)
      (by with_unfolding_all rfl) ?_, by with_unfolding_all rfl⟩
  rw [show "grams".toLower = "grams" from by with_unfolding_all rfl]
  decide

/-! ## C5 -/

/-- C5: when no unit-equality rule fires and the cross-unit table has an
entry for the (userUnit, referenceUnit) pair, the first table substring
(in the table's fixed insertion order) contained in the lowercased canonical
food name determines the result: (quantity × factor) / servingSize. -/
theorem C5_cross_unit_table (q : ℚ) (u : String) (f : FoodRecord)
    (e : (String × String) × List (String × ℚ)) (p : String × ℚ)
    (h1 : u.toLower ≠ "serving") (h2 : u.toLower ≠ f.serving_unit.toLower)
    (htab : conversions.find? (fun e2 =>
      e2.1 == (u.toLower, f.serving_unit.toLower)) = some e)
    (hsub : e.2.find? (fun pr =>
      strContains f.food_name.toLower pr.1) = some p) :
    convertUnit q u f = some (q * p.2 / (f.serving_size : ℚ)) := by
  unfold convertUnit convert_to_serving_multiplier
  have e1 : (u.toLower == "serving") = false := by simp [h1]
  have e4 : (u.toLower == f.serving_unit.toLower) = false := by simp [h2]
  have e2 : (u.toLower == "grams" && f.serving_unit.toLower == "grams")
      = false := by
    cases hg1 : u.toLower == "grams" <;>
      cases hg2 : f.serving_unit.toLower == "grams" <;> simp_all
  have e3 : (u.toLower == "ml" && f.serving_unit.toLower == "ml") = false := by
    cases hg1 : u.toLower == "ml" <;>
      cases hg2 : f.serving_unit.toLower == "ml" <;> simp_all
  simp only [e1, e2, e3, e4, Bool.false_eq_true, if_false, htab, hsub]

/-- C5 witness: end-to-end scenario C — 23 pieces of Almonds with serving
size 30 grams and the piece→grams factor 1.2 yield multiplier 0.92. -/
theorem C5_witness :
    convertUnit 23 "piece" almondsFood =
      some (23 * ((6 : ℚ)/5) / (almondsFood.serving_size : ℚ)) ∧
    (23 * ((6 : ℚ)/5) / ((almondsFood.serving_size : Int) : ℚ)) = 0.92 := by
  refine ⟨C5_cross_unit_table 23 "piece" almondsFood
    (("piece", "grams"), [("almonds", 6/5), ("samosa", 100), ("idli", 60)])
    ("almonds", 6/5) ?_ ?_ (by with_unfolding_all rfl)
    (by with_unfolding_all rfl), by with_unfolding_all rfl⟩
  · rw [show "piece".toLower = "piece" from by with_unfolding_all rfl]
    decide
  · rw [show "piece".toLower = "piece" from by with_unfolding_all rfl,
      show almondsFood.serving_unit.toLower = "grams" from
        by with_unfolding_all rfl]
    decide

/-! ## C6 -/

/-- C6: when the unit is not "serving", differs from the reference unit, and
no table substring matches the canonical name, the converter yields the
unsupported outcome (`none`); and `log_meal` then rejects with the food's
reference serving unit as the hint, leaving the state unchanged. -/
theorem C6_unsupported_outcome :
    (∀ (q : ℚ) (u : String) (f : FoodRecord),
      u.toLower ≠ "serving" → u.toLower ≠ f.serving_unit.toLower →
      (∀ e, conversions.find? (fun e2 =>
          e2.1 == (u.toLower, f.serving_unit.toLower)) = some e →
        e.2.find? (fun pr => strContains f.food_name.toLower pr.1) = none) →
      convertUnit q u f = none) ∧
    (∀ (ratio : String → String → ℚ) (db : DB) (now : ℚ) (today uid : Int)
       (mt fname : String) (q : ℚ) (unit : String) (usr : UserRec)
       (food : FoodRecord),
      (validate_meal_input uid mt fname).1 = true → ¬ q ≤ 0 → unit ≠ "" →
      db.users.find? (fun u => u.id == uid) = some usr →
      prevent_duplicate_log db uid fname now 5 = false →
      fuzzy_search_food ratio db.foods fname = some food →
      convertUnit q unit food = none →
      log_meal ratio db now today uid mt fname q unit =
        (.unsupportedUnit unit food.serving_unit, db)) := by
  constructor
  · intro q u f h1 h2 htab
    unfold convertUnit convert_to_serving_multiplier
    have e1 : (u.toLower == "serving") = false := by simp [h1]
    have e4 : (u.toLower == f.serving_unit.toLower) = false := by simp [h2]
    have e2 : (u.toLower == "grams" && f.serving_unit.toLower == "grams")
        = false := by
      cases hg1 : u.toLower == "grams" <;>
        cases hg2 : f.serving_unit.toLower == "grams" <;> simp_all
    have e3 : (u.toLower == "ml" && f.serving_unit.toLower == "ml")
        = false := by
      cases hg1 : u.toLower == "ml" <;>
        cases hg2 : f.serving_unit.toLower == "ml" <;> simp_all
    cases hfind : conversions.find? (fun e2 =>
        e2.1 == (u.toLower, f.serving_unit.toLower)) with
    | none =>
      simp only [e1, e2, e3, e4, Bool.false_eq_true, if_false, hfind]
    | some e =>
      simp only [e1, e2, e3, e4, Bool.false_eq_true, if_false, hfind,
        htab e hfind]
  · intro ratio db now today uid mt fname q unit usr food hv hq hu hfind hdup
      hfuzzy hconv
    exact log_meal_unsupported hv hq hu hfind hdup hfuzzy hconv

/-- C6 witness: end-to-end scenario D — unit "cup" against Biryani, whose
name matches no cup-table substring, is rejected as unsupported with the
reference unit "grams" as hint. -/
theorem C6_witness :
    convertUnit 2 "cup" biryaniFood = none ∧
    log_meal ratioZero dbBiryani 0 0 1 "lunch" "Biryani" 2 "cup" =
      (.unsupportedUnit "cup" biryaniFood.serving_unit, dbBiryani) ∧
    biryaniFood.serving_unit = "grams" := by
  have hcup : "cup".toLower = "cup" := by with_unfolding_all rfl
  have hbg : biryaniFood.serving_unit.toLower = "grams" := by
    with_unfolding_all rfl
  have h1 : ("cup" : String).toLower ≠ "serving" := by rw [hcup]; decide
  have h2 : ("cup" : String).toLower ≠ biryaniFood.serving_unit.toLower := by
    rw [hcup, hbg]; decide
  have htab : ∀ e, conversions.find? (fun e2 =>
      e2.1 == ("cup".toLower, biryaniFood.serving_unit.toLower)) = some e →
      e.2.find? (fun pr =>
        strContains biryaniFood.food_name.toLower pr.1) = none := by
    intro e he
    rw [show conversions.find? (fun e2 =>
        e2.1 == ("cup".toLower, biryaniFood.serving_unit.toLower)) =
      some (("cup", "grams"),
        [("oatmeal", (50 : ℚ)), ("rice", 200), ("dal", 200)]) from
      by with_unfolding_all rfl] at he
    injection he with he2
    subst he2
    with_unfolding_all rfl
  have hcv : convertUnit 2 "cup" biryaniFood = none :=
    C6_unsupported_outcome.1 2 "cup" biryaniFood h1 h2 htab
  refine ⟨hcv, ?_, rfl⟩
  exact C6_unsupported_outcome.2 ratioZero dbBiryani 0 0 1 "lunch" "Biryani"
    2 "cup" demoUser biryaniFood (by with_unfolding_all rfl) (by norm_num)
    (by decide) (by with_unfolding_all rfl) (by with_unfolding_all rfl)
    (by with_unfolding_all rfl) hcv

/-! ## C1 -/

/-- C1 (amended): for every successful logMeal call, the calories stored in
the created ledger row and returned to the caller equal
`int(food.calories × multiplier)`, i.e. the product truncated toward zero
(the floor for the non-negative products that arise) — when the fractional
part is 0.5 or more the result is still the truncation, not the next
integer up. -/
theorem C1_calories_truncated {ratio : String → String → ℚ} {db : DB}
    {now : ℚ} {today : Int} {uid : Int} {mt fname : String} {q : ℚ}
    {unit : String} {r : LogMealOk} {db2 : DB} {food : FoodRecord} {m : ℚ}
    (hfuzzy : fuzzy_search_food ratio db.foods fname = some food)
    (hconv : convertUnit q unit food = some m)
    (h : log_meal ratio db now today uid mt fname q unit = (.ok r, db2)) :
    r.actual_calories = pyInt ((food.default_calories : ℚ) * m) ∧
    ∃ e, db2.food_logs = db.food_logs ++ [e] ∧
      e.calories = pyInt ((food.default_calories : ℚ) * m) ∧
      e.food_name = food.food_name := by
  obtain ⟨-, -, -, usr, food', m', -, -, hf', hc', -, hcal, hdb⟩ :=
    log_meal_ok_inv h
  rw [hfuzzy] at hf'
  obtain rfl : food' = food := (Option.some.inj hf').symm
  rw [hconv] at hc'
  obtain rfl : m' = m := (Option.some.inj hc').symm
  refine ⟨hcal, _, by rw [hdb], rfl, rfl⟩

/-- C1 counterexample: logging 15 grams of Oatmeal (165 cal per 30 g
serving) gives multiplier 1/2 and product 82.5; the code stores 82
(truncation) while the claim's round-half rule demands 83. -/
theorem C1_counterexample :
    okCalories (log_meal ratioZero dbC1 0 0 1 "breakfast" "Oatmeal" 15
      "grams").1 = some 82 ∧
    convertUnit 15 "grams" oatmealFood = some (1/2) ∧
    specRound ((oatmealFood.default_calories : ℚ) * (1/2)) = 83 ∧
    (82 : Int) ≠ 83 :=
  ⟨by with_unfolding_all rfl, by with_unfolding_all rfl,
   by with_unfolding_all rfl, by decide⟩

/-- C1 witness: the amended theorem applied to the concrete 15-grams-of-
Oatmeal call, whose stored calories evaluate to 82. -/
theorem C1_witness :
    log_meal ratioZero dbC1 0 0 1 "breakfast" "Oatmeal" 15 "grams" =
      (.ok payC1, db1C1) ∧
    payC1.actual_calories = pyInt ((oatmealFood.default_calories : ℚ) * (1/2)) ∧
    pyInt ((oatmealFood.default_calories : ℚ) * (1/2)) = 82 :=
  ⟨by with_unfolding_all rfl,
   (C1_calories_truncated
     (show fuzzy_search_food ratioZero dbC1.foods "Oatmeal" =
        some oatmealFood from by with_unfolding_all rfl)
     (show convertUnit 15 "grams" oatmealFood = some (1/2) from
        by with_unfolding_all rfl)
     (show log_meal ratioZero dbC1 0 0 1 "breakfast" "Oatmeal" 15 "grams" =
        (.ok payC1, db1C1) from by with_unfolding_all rfl)).1,
   by with_unfolding_all rfl⟩

/-! ## C2 -/

/-- C2 (amended): a successful logMeal leaves the DailySummary table
unchanged — the row for (user, today) need not exist after a log; the
summary row is created or recomputed only by
`create_or_update_daily_summary` (invoked from the daily-status query),
and at that point it equals the fold of the day's ledger rows: summed
calories, summed macros, and row count. -/
theorem C2_summary_untouched_by_log :
    (∀ (ratio : String → String → ℚ) (db : DB) (now : ℚ) (today uid : Int)
       (mt fname : String) (q : ℚ) (unit : String) (r : LogMealOk) (db2 : DB),
       log_meal ratio db now today uid mt fname q unit = (.ok r, db2) →
       db2.summaries = db.summaries) ∧
    (∀ (db : DB) (uid d : Int) (usr : UserRec),
       db.users.find? (fun u => u.id == uid) = some usr →
       ∃ s db2, create_or_update_daily_summary db uid d = (some s, db2) ∧
         s.user_id = uid ∧ s.date = d ∧
         s.consumed_calories =
           ((dayLogs db uid d).map (fun l => l.calories)).sum ∧
         s.total_protein_g =
           ((dayLogs db uid d).map (fun l => l.protein_g)).sum ∧
         s.total_carbs_g =
           ((dayLogs db uid d).map (fun l => l.carbs_g)).sum ∧
         s.total_fats_g =
           ((dayLogs db uid d).map (fun l => l.fats_g)).sum ∧
         s.meals_logged = (dayLogs db uid d).length ∧
         s ∈ db2.summaries) := by
  constructor
  · intro ratio db now today uid mt fname q unit r db2 h
    obtain ⟨-, -, -, usr, food, m, -, -, -, -, -, -, hdb⟩ := log_meal_ok_inv h
    rw [hdb]
  · intro db uid d usr hfind
    unfold create_or_update_daily_summary
    rw [hfind]
    dsimp only
    cases hsum : db.summaries.find? (fun s =>
        s.user_id == uid && s.date == d) with
    | some s0 =>
      dsimp only
      have hp := List.find?_some hsum
      simp only [Bool.and_eq_true, beq_iff_eq] at hp
      refine ⟨_, _, rfl, hp.1, hp.2, rfl, rfl, rfl, rfl, rfl, ?_⟩
      exact List.mem_map.mpr ⟨s0, List.mem_of_find?_eq_some hsum,
        by rw [if_pos (List.find?_some hsum)]⟩
    | none =>
      dsimp only
      refine ⟨_, _, rfl, rfl, rfl, rfl, rfl, rfl, rfl, rfl, ?_⟩
      simp

/-- C2 counterexample: starting from a state with no summaries, a successful
logMeal call leaves the summaries table empty — no DailySummary row for
(user, today) exists after the log, contradicting the claim. -/
theorem C2_counterexample :
    okCalories (log_meal ratioZero dbC1 0 0 1 "breakfast" "Oatmeal" 15
      "grams").1 = some 82 ∧
    (log_meal ratioZero dbC1 0 0 1 "breakfast" "Oatmeal" 15 "grams").2.summaries
      = [] :=
  ⟨by with_unfolding_all rfl, by with_unfolding_all rfl⟩

/-- C2 witness: the amended theorem applied to the concrete Oatmeal log and
to a status-query recomputation on the resulting state. -/
theorem C2_witness :
    log_meal ratioZero dbC1 0 0 1 "breakfast" "Oatmeal" 15 "grams" =
      (.ok payC1, db1C1) ∧
    db1C1.summaries = dbC1.summaries ∧
    (∃ s db2, create_or_update_daily_summary db1C1 1 0 = (some s, db2) ∧
       s.user_id = 1 ∧ s.date = 0 ∧
       s.consumed_calories =
         ((dayLogs db1C1 1 0).map (fun l => l.calories)).sum ∧
       s.total_protein_g =
         ((dayLogs db1C1 1 0).map (fun l => l.protein_g)).sum ∧
       s.total_carbs_g =
         ((dayLogs db1C1 1 0).map (fun l => l.carbs_g)).sum ∧
       s.total_fats_g =
         ((dayLogs db1C1 1 0).map (fun l => l.fats_g)).sum ∧
       s.meals_logged = (dayLogs db1C1 1 0).length ∧
       s ∈ db2.summaries) :=
  ⟨by with_unfolding_all rfl,
   C2_summary_untouched_by_log.1 ratioZero dbC1 0 0 1 "breakfast" "Oatmeal"
     15 "grams" payC1 db1C1 (by with_unfolding_all rfl),
   C2_summary_untouched_by_log.2 db1C1 1 0 demoUser
     (by with_unfolding_all rfl)⟩

/-! ## C8 -/

/-- C8 (amended): in logMeal the user-existence check precedes the duplicate
guard — on a state where a recent ledger entry for the (user id, food) pair
exists but no user with that id exists, the call is rejected with the
user-not-found outcome, not as a duplicate. -/
theorem C8_user_check_first :
    ∀ (ratio : String → String → ℚ) (db : DB) (now : ℚ) (today uid : Int)
      (mt fname : String) (q : ℚ) (unit : String),
      (validate_meal_input uid mt fname).1 = true → ¬ q ≤ 0 → unit ≠ "" →
      db.users.find? (fun u => u.id == uid) = none →
      prevent_duplicate_log db uid fname now 5 = true →
      log_meal ratio db now today uid mt fname q unit = (.userNotFound, db) :=
  fun _ _ _ _ _ _ _ _ _ hv hq hu hfind _ =>
    log_meal_user_missing hv hq hu hfind

/-- C8 counterexample: a state with a minute-old ledger row for user 1 and
"Biryani" but no user row; the guard would fire, yet the call is rejected
as user-not-found, not as a duplicate. -/
theorem C8_counterexample :
    log_meal ratioZero dbC8 1 0 1 "lunch" "Biryani" 1 "serving" =
      (.userNotFound, dbC8) ∧
    prevent_duplicate_log dbC8 1 "Biryani" 1 5 = true ∧
    (LogMealResult.userNotFound ≠ LogMealResult.duplicate "Biryani") :=
  ⟨by with_unfolding_all rfl, by with_unfolding_all rfl, by decide⟩

/-- C8 witness: the amended theorem applied to the concrete no-user state
with a fresh duplicate ledger row. -/
theorem C8_witness :
    log_meal ratioZero dbC8 1 0 1 "lunch" "Biryani" 1 "serving" =
      (.userNotFound, dbC8) :=
  C8_user_check_first ratioZero dbC8 1 0 1 "lunch" "Biryani" 1 "serving"
    (by with_unfolding_all rfl) (by norm_num) (by decide)
    (by with_unfolding_all rfl) (by with_unfolding_all rfl)

/-! ## C3 -/

/-- C3 (amended): if a logMeal call succeeds and its resolved canonical food
name equals the input food name, then a second call for the same user and
the same input name within the trailing 5-minute window is rejected as a
duplicate with the state unchanged (logMeal stores the resolved canonical
name while the guard matches the raw input, so the guarantee holds when the
two coincide); and the guard passes any call whose matching ledger rows all
lie outside the window. -/
theorem C3_duplicate_window :
    (∀ (ratio ratio2 : String → String → ℚ) (db : DB) (now now2 : ℚ)
       (today today2 uid : Int) (mt mt2 fname : String) (q q2 : ℚ)
       (unit unit2 : String) (r : LogMealOk) (db1 : DB),
       log_meal ratio db now today uid mt fname q unit = (.ok r, db1) →
       r.food = fname →
       now2 - now < 5 →
       (validate_meal_input uid mt2 fname).1 = true →
       ¬ q2 ≤ 0 → unit2 ≠ "" →
       log_meal ratio2 db1 now2 today2 uid mt2 fname q2 unit2 =
         (.duplicate fname, db1)) ∧
    (∀ (db : DB) (uid : Int) (fname : String) (now : ℚ),
       (∀ e ∈ db.food_logs, e.user_id = uid → e.food_name = fname →
          e.logged_at ≤ now - 5) →
       prevent_duplicate_log db uid fname now 5 = false) := by
  constructor
  · intro ratio ratio2 db now now2 today today2 uid mt mt2 fname q q2 unit
      unit2 r db1 h1 hfood hwin hv2 hq2 hu2
    obtain ⟨-, -, -, usr, food, m, hfind, -, -, -, hrfood, -, hdb⟩ :=
      log_meal_ok_inv h1
    have hfname : food.food_name = fname := by rw [← hrfood]; exact hfood
    have husers : db1.users = db.users := by rw [hdb]
    have hdup : prevent_duplicate_log db1 uid fname now2 5 = true := by
      unfold prevent_duplicate_log
      dsimp only
      rw [hdb]
      refine List.find?_isSome.mpr
        ⟨_, List.mem_append_right _ (List.mem_singleton.mpr rfl), ?_⟩
      simp only [Bool.and_eq_true, beq_iff_eq, decide_eq_true_eq]
      exact ⟨⟨trivial, hfname⟩, by linarith⟩
    exact log_meal_duplicate hv2 hq2 hu2 (by rw [husers]; exact hfind) hdup
  · intro db uid fname now hold
    unfold prevent_duplicate_log
    dsimp only
    have hnone : db.food_logs.find? (fun l =>
        l.user_id == uid && l.food_name == fname &&
          decide (now - 5 < l.logged_at)) = none := by
      apply List.find?_eq_none.mpr
      intro e he hp
      simp only [Bool.and_eq_true, beq_iff_eq, decide_eq_true_eq] at hp
      have hle := hold e he hp.1.1 hp.1.2
      linarith [hp.2]
    rw [hnone]
    rfl

/-- C3 counterexample: user 1 logs the input "oats" twice, one minute apart.
The first call resolves the alias to the canonical record "Oatmeal" and
stores that name, so the guard (which matches the raw input "oats") does not
fire: the second call inside the window is NOT rejected and appends a second
ledger row, contradicting the claim. -/
theorem C3_counterexample :
    okFoodName c3run1.1 = some "Oatmeal" ∧
    c3run1.2.food_logs.length = 1 ∧
    okFoodName c3run2.1 = some "Oatmeal" ∧
    c3run2.2.food_logs.length = 2 ∧
    ((1 : ℚ) - 0 < 5) :=
  ⟨by with_unfolding_all rfl, by with_unfolding_all rfl,
   by with_unfolding_all rfl, by with_unfolding_all rfl, by norm_num⟩

/-- C3 witness: logging "Biryani" (an exact canonical name) twice, one
minute apart, has the second call rejected as a duplicate; and the guard
passes when the only matching row is ten minutes old. -/
theorem C3_witness :
    log_meal ratioZero dbBiryani 0 0 1 "lunch" "Biryani" 1 "serving" =
      (.ok payB, db1B) ∧
    log_meal ratioZero db1B 1 0 1 "lunch" "Biryani" 1 "serving" =
      (.duplicate "Biryani", db1B) ∧
    prevent_duplicate_log dbOldB 1 "Biryani" 10 5 = false := by
  refine ⟨by with_unfolding_all rfl, ?_, ?_⟩
  · exact C3_duplicate_window.1 ratioZero ratioZero dbBiryani 0 1 0 0 1
      "lunch" "lunch" "Biryani" 1 1 "serving" "serving" payB db1B
      (by with_unfolding_all rfl) (by with_unfolding_all rfl) (by norm_num)
      (by with_unfolding_all rfl) (by norm_num) (by decide)
  · refine C3_duplicate_window.2 dbOldB 1 "Biryani" 10 ?_
    intro e he hid hname
    have he2 : e = oldBiryaniLog := by
      simpa [dbOldB] using he
    subst he2
    rw [show oldBiryaniLog.logged_at = 0 from rfl]
    norm_num

/-! ## C9 -/

/-- C9: registration is idempotent by identity match.  For the external-id
route (`register_user`): a second call with the same profile id returns the
same user id and leaves the user table unchanged.  For the phone-matching
service (`create_or_get_user`): when the profile carries a nonempty phone
number, a second call returns the very same user row and leaves the state
unchanged. -/
theorem C9_register_idempotent :
    (∀ (db : DB) (p : UserProfile) (i : Int) (r1 : RegisterResult) (db1 : DB),
       p.id = some i →
       register_user db p = (r1, db1) →
       register_user db1 p = (.existing (regId r1) (regName r1), db1)) ∧
    (∀ (db : DB) (p : UserProfile) (ph : String) (u1 : UserRec) (db1 : DB),
       p.phone_number = some ph → ph ≠ "" →
       create_or_get_user db p = (u1, db1) →
       create_or_get_user db1 p = (u1, db1)) := by
  constructor
  · intro db p i r1 db1 hid h1
    unfold register_user at h1 ⊢
    simp only [hid] at h1 ⊢
    cases hfind : db.users.find? (fun u => u.id == i) with
    | some u =>
      rw [hfind] at h1
      injection h1 with hr hdb
      subst hr
      subst hdb
      rw [hfind]
      rfl
    | none =>
      rw [hfind] at h1
      dsimp only at h1
      injection h1 with hr hdb
      subst hr
      subst hdb
      dsimp only
      rw [List.find?_append, hfind]
      rw [List.find?_cons_of_pos _ (by simp)]
      rfl
  · intro db p ph u1 db1 hph hne h1
    unfold create_or_get_user at h1 ⊢
    have hb : (ph == "") = false := by simp [hne]
    simp only [hph, hb, Bool.false_eq_true, if_false] at h1 ⊢
    cases hfind : db.users.find? (fun u => u.phone_number == some ph) with
    | some u =>
      rw [hfind] at h1
      injection h1 with hu hdb
      subst hu
      subst hdb
      rw [hfind]
    | none =>
      rw [hfind] at h1
      dsimp only at h1
      injection h1 with hu hdb
      subst hu
      subst hdb
      dsimp only
      rw [List.find?_append, hfind]
      rw [List.find?_cons_of_pos _ (by simp)]
      rfl

/-- C9 witness: registering profile A (Telegram id 7) twice returns user id
7 both times with a single user row, and the phone-matching service behaves
the same for profile B. -/
theorem C9_witness :
    register_user dbEmpty profA = (.created 7 "Kiran", dbA1) ∧
    register_user dbA1 profA = (.existing 7 "Kiran", dbA1) ∧
    create_or_get_user dbEmpty profB = (userB, dbB1) ∧
    create_or_get_user dbB1 profB = (userB, dbB1) :=
  ⟨by with_unfolding_all rfl,
   C9_register_idempotent.1 dbEmpty profA 7 (.created 7 "Kiran") dbA1
     (by with_unfolding_all rfl) (by with_unfolding_all rfl),
   by with_unfolding_all rfl,
   C9_register_idempotent.2 dbEmpty profB "9999" userB dbB1
     (by with_unfolding_all rfl) (by decide) (by with_unfolding_all rfl)⟩

/-! ## C10 -/

/-- C10: recomputing an existing DailySummary row writes only the consumed
calories, the remaining calories, the three macro totals and the meal
count — target_calories (and the key fields) keep their stored values while
remaining is recomputed from the user's current goal; concretely, on a row
created under a 1800-calorie goal after the user switched to muscle_gain,
the updated row has remaining 2400 ≠ 1800 − 100. -/
theorem C10_update_writes_only_totals :
    (∀ (db : DB) (uid d : Int) (usr : UserRec) (s0 : DailySummaryRec),
       db.users.find? (fun u => u.id == uid) = some usr →
       db.summaries.find? (fun s => s.user_id == uid && s.date == d) =
         some s0 →
       ∃ s1, create_or_update_daily_summary db uid d =
           (some s1,
            { db with summaries := db.summaries.map (fun t =>
                if t.user_id == uid && t.date == d then s1 else t) }) ∧
         s1.target_calories = s0.target_calories ∧
         s1.user_id = s0.user_id ∧ s1.date = s0.date ∧
         s1.consumed_calories =
           ((dayLogs db uid d).map (fun l => l.calories)).sum ∧
         s1.remaining_calories =
           (calculate_daily_calories (usr.goal.getD "")).total -
             ((dayLogs db uid d).map (fun l => l.calories)).sum ∧
         s1.total_protein_g =
           ((dayLogs db uid d).map (fun l => l.protein_g)).sum ∧
         s1.total_carbs_g =
           ((dayLogs db uid d).map (fun l => l.carbs_g)).sum ∧
         s1.total_fats_g =
           ((dayLogs db uid d).map (fun l => l.fats_g)).sum ∧
         s1.meals_logged = (dayLogs db uid d).length) ∧
    (∃ s1 db2, create_or_update_daily_summary dbC10 1 0 = (some s1, db2) ∧
       s1.target_calories = 1800 ∧ s1.consumed_calories = 100 ∧
       s1.remaining_calories = 2400 ∧
       s1.remaining_calories ≠ s1.target_calories - s1.consumed_calories) := by
  constructor
  · intro db uid d usr s0 hfind hsum
    unfold create_or_update_daily_summary
    rw [hfind]
    dsimp only
    rw [hsum]
    dsimp only
    exact ⟨_, rfl, rfl, rfl, rfl, rfl, rfl, rfl, rfl, rfl, rfl⟩
  · exact ⟨s1C10, { dbC10 with summaries := [s1C10] },
      by with_unfolding_all rfl, rfl, rfl, rfl, by decide⟩

/-- C10 witness: the frame theorem applied to the concrete stale-goal
state. -/
theorem C10_witness :
    ∃ s1, create_or_update_daily_summary dbC10 1 0 =
        (some s1,
         { dbC10 with summaries := dbC10.summaries.map (fun t =>
             if t.user_id == 1 && t.date == 0 then s1 else t) }) ∧
      s1.target_calories = staleSummary.target_calories ∧
      s1.user_id = staleSummary.user_id ∧ s1.date = staleSummary.date ∧
      s1.consumed_calories =
        ((dayLogs dbC10 1 0).map (fun l => l.calories)).sum ∧
      s1.remaining_calories =
        (calculate_daily_calories (mgUser.goal.getD "")).total -
          ((dayLogs dbC10 1 0).map (fun l => l.calories)).sum ∧
      s1.total_protein_g =
        ((dayLogs dbC10 1 0).map (fun l => l.protein_g)).sum ∧
      s1.total_carbs_g =
        ((dayLogs dbC10 1 0).map (fun l => l.carbs_g)).sum ∧
      s1.total_fats_g =
        ((dayLogs dbC10 1 0).map (fun l => l.fats_g)).sum ∧
      s1.meals_logged = (dayLogs dbC10 1 0).length :=
  C10_update_writes_only_totals.1 dbC10 1 0 mgUser staleSummary
    (by with_unfolding_all rfl) (by with_unfolding_all rfl)

/-! ## C7: lemmas about the similarity loop. -/

lemma bestRatioOf_cons (ratio : String → String → ℚ) (fl : String)
    (f : FoodRecord) (rest : List FoodRecord) (b : ℚ) :
    bestRatioOf ratio fl (f :: rest) b =
      max (ratio fl f.food_name.toLower) (bestRatioOf ratio fl rest b) := rfl

lemma le_bestRatioOf (ratio : String → String → ℚ) (fl : String) :
    ∀ (foods : List FoodRecord) (b : ℚ), b ≤ bestRatioOf ratio fl foods b := by
  intro foods
  induction foods with
  | nil => intro b; exact le_refl b
  | cons f rest ih =>
    intro b
    rw [bestRatioOf_cons]
    exact le_trans (ih b) (le_max_right _ _)

lemma bestRatioOf_max (ratio : String → String → ℚ) (fl : String) :
    ∀ (foods : List FoodRecord) (x b : ℚ),
      bestRatioOf ratio fl foods (max x b) =
        max x (bestRatioOf ratio fl foods b) := by
  intro foods
  induction foods with
  | nil => intro x b; rfl
  | cons f rest ih =>
    intro x b
    rw [bestRatioOf_cons, bestRatioOf_cons, ih]
    exact max_left_comm _ _ _

/-- Invariant-carrying specification of the source's best-match loop: when
the running state is the initial one or a previously accepted match, the
loop returns the first record attaining the running maximum if that maximum
beats the 0.6 threshold, and leaves the state untouched otherwise. -/
lemma fuzzyLoop_spec (ratio : String → String → ℚ) (fl : String) :
    ∀ (foods : List FoodRecord) (best : Option FoodRecord) (b : ℚ),
      ((best = none ∧ b = 0) ∨
        (∃ f, best = some f ∧ b = ratio fl f.food_name.toLower ∧
          (3 : ℚ)/5 < b)) →
      (((3 : ℚ)/5 < bestRatioOf ratio fl foods b →
          ∃ r2, fuzzyLoop ratio fl foods best b =
              (some r2, bestRatioOf ratio fl foods b) ∧
            ratio fl r2.food_name.toLower = bestRatioOf ratio fl foods b) ∧
        (bestRatioOf ratio fl foods b ≤ 3/5 →
          fuzzyLoop ratio fl foods best b = (best, b))) := by
  intro foods
  induction foods with
  | nil =>
    intro best b hinv
    constructor
    · intro hgt
      rcases hinv with ⟨hbest, hb0⟩ | ⟨f, hbest, hb, hlt⟩
      · exfalso
        have hgt2 : (3 : ℚ)/5 < b := hgt
        rw [hb0] at hgt2
        norm_num at hgt2
      · subst hbest
        exact ⟨f, rfl, hb.symm⟩
    · intro _
      rfl
  | cons f rest ih =>
    intro best b hinv
    have hrw : fuzzyLoop ratio fl (f :: rest) best b =
        if b < ratio fl f.food_name.toLower ∧
            (3 : ℚ)/5 < ratio fl f.food_name.toLower then
          fuzzyLoop ratio fl rest (some f) (ratio fl f.food_name.toLower)
        else fuzzyLoop ratio fl rest best b := rfl
    by_cases hcond : b < ratio fl f.food_name.toLower ∧
        (3 : ℚ)/5 < ratio fl f.food_name.toLower
    · have hloop : fuzzyLoop ratio fl (f :: rest) best b =
          fuzzyLoop ratio fl rest (some f) (ratio fl f.food_name.toLower) := by
        rw [hrw, if_pos hcond]
      have hmax : max (ratio fl f.food_name.toLower) b =
          ratio fl f.food_name.toLower := max_eq_left (le_of_lt hcond.1)
      have hb2 : bestRatioOf ratio fl (f :: rest) b =
          bestRatioOf ratio fl rest (ratio fl f.food_name.toLower) := by
        rw [bestRatioOf_cons, ← bestRatioOf_max, hmax]
      obtain ⟨ih1, ih2⟩ := ih (some f) (ratio fl f.food_name.toLower)
        (Or.inr ⟨f, rfl, rfl, hcond.2⟩)
      constructor
      · intro hgt
        rw [hloop, hb2]
        rw [hb2] at hgt
        exact ih1 hgt
      · intro hle
        exfalso
        rw [hb2] at hle
        have hge := le_bestRatioOf ratio fl rest
          (ratio fl f.food_name.toLower)
        linarith [hcond.2]
    · have hloop : fuzzyLoop ratio fl (f :: rest) best b =
          fuzzyLoop ratio fl rest best b := by
        rw [hrw, if_neg hcond]
      obtain ⟨ih1, ih2⟩ := ih best b hinv
      have hbase := le_bestRatioOf ratio fl rest b
      constructor
      · intro hgt
        have hcollapse : bestRatioOf ratio fl (f :: rest) b =
            bestRatioOf ratio fl rest b := by
          rcases not_and_or.mp hcond with h | h
          · push_neg at h
            rw [bestRatioOf_cons]
            exact max_eq_right (le_trans h hbase)
          · push_neg at h
            have h2 : (3 : ℚ)/5 < bestRatioOf ratio fl rest b := by
              rw [bestRatioOf_cons] at hgt
              rcases lt_max_iff.mp hgt with h3 | h3
              · linarith
              · exact h3
            rw [bestRatioOf_cons]
            exact max_eq_right (le_of_lt (lt_of_le_of_lt h h2))
        rw [hloop, hcollapse]
        rw [hcollapse] at hgt
        exact ih1 hgt
      · intro hle
        rw [hloop]
        apply ih2
        rw [bestRatioOf_cons] at hle
        exact le_trans (le_max_right _ _) hle

/-- C7: the resolver's strict three-tier priority.  (1) An input whose
lowercased trimmed form equals some record's canonical name
case-insensitively resolves to that record (canonical names being pairwise
distinct after lowering), whatever any alias or similarity score would say.
(2) Otherwise an input matching an alias token (semicolon-delimited,
per-token, case-insensitively) of exactly one record resolves to that
record.  (3) Otherwise the outcome is a record attaining the maximum
similarity ratio, returned only when that maximum strictly exceeds 0.6, and
not-found otherwise. -/
theorem C7_resolver_priority :
    (∀ (ratio : String → String → ℚ) (foods : List FoodRecord)
       (input : String) (r : FoodRecord),
       r ∈ foods → r.food_name.toLower = input.toLower.trim →
       (∀ r2 ∈ foods, r2.food_name.toLower = input.toLower.trim → r2 = r) →
       fuzzy_search_food ratio foods input = some r) ∧
    (∀ (ratio : String → String → ℚ) (foods : List FoodRecord)
       (input : String) (r : FoodRecord),
       (∀ f ∈ foods, f.food_name.toLower ≠ input.toLower.trim) →
       r ∈ foods → aliasHit r input.toLower.trim = true →
       (∀ f ∈ foods, aliasHit f input.toLower.trim = true → f = r) →
       fuzzy_search_food ratio foods input = some r) ∧
    (∀ (ratio : String → String → ℚ) (foods : List FoodRecord)
       (input : String),
       (∀ f ∈ foods, f.food_name.toLower ≠ input.toLower.trim) →
       (∀ f ∈ foods, aliasHit f input.toLower.trim = false) →
       (((3 : ℚ)/5 < bestRatioOf ratio input.toLower.trim foods 0 →
          ∃ r, fuzzy_search_food ratio foods input = some r ∧
            ratio input.toLower.trim r.food_name.toLower =
              bestRatioOf ratio input.toLower.trim foods 0) ∧
        (bestRatioOf ratio input.toLower.trim foods 0 ≤ 3/5 →
          fuzzy_search_food ratio foods input = none))) := by
  refine ⟨?_, ?_, ?_⟩
  · intro ratio foods input r hmem heq huniq
    unfold fuzzy_search_food
    dsimp only
    have hfind : foods.find?
        (fun f => f.food_name.toLower == input.toLower.trim) = some r := by
      cases hfx : foods.find?
          (fun f => f.food_name.toLower == input.toLower.trim) with
      | none =>
        exfalso
        have hc := List.find?_eq_none.mp hfx r hmem
        simp [heq] at hc
      | some x =>
        have hx := List.find?_some hfx
        simp only [beq_iff_eq] at hx
        rw [huniq x (List.mem_of_find?_eq_some hfx) hx]
    rw [hfind]
  · intro ratio foods input r hnoex hmem halias huniq
    unfold fuzzy_search_food
    dsimp only
    have h1 : foods.find?
        (fun f => f.food_name.toLower == input.toLower.trim) = none :=
      List.find?_eq_none.mpr (fun f hf => by simp [hnoex f hf])
    have h2 : foods.find? (fun f => aliasHit f input.toLower.trim)
        = some r := by
      cases hfx : foods.find? (fun f => aliasHit f input.toLower.trim) with
      | none =>
        exact absurd halias (by simpa using List.find?_eq_none.mp hfx r hmem)
      | some x =>
        have hx := List.find?_some hfx
        rw [huniq x (List.mem_of_find?_eq_some hfx) hx]
    rw [h1, h2]
  · intro ratio foods input hnoex hnoal
    have h1 : foods.find?
        (fun f => f.food_name.toLower == input.toLower.trim) = none :=
      List.find?_eq_none.mpr (fun f hf => by simp [hnoex f hf])
    have h2 : foods.find? (fun f => aliasHit f input.toLower.trim)
        = none :=
      List.find?_eq_none.mpr (fun f hf => by simp [hnoal f hf])
    obtain ⟨s1, s2⟩ := fuzzyLoop_spec ratio input.toLower.trim foods none 0
      (Or.inl ⟨rfl, rfl⟩)
    constructor
    · intro hgt
      obtain ⟨r2, he, hr⟩ := s1 hgt
      refine ⟨r2, ?_, hr⟩
      unfold fuzzy_search_food
      dsimp only
      rw [h1, h2, he]
    · intro hle
      unfold fuzzy_search_food
      dsimp only
      rw [h1, h2, s2 hle]

/-- C7 witness: on a one-record catalog, the exact tier resolves "Oatmeal",
the alias tier resolves "oats", the fuzzy tier rejects "oatmel" under a
zero-scoring similarity, and above threshold (0.7) the fuzzy tier returns
the maximising record. -/
theorem C7_witness :
    fuzzy_search_food ratioZero [oatmealFood] "Oatmeal" = some oatmealFood ∧
    fuzzy_search_food ratioZero [oatmealFood] "oats" = some oatmealFood ∧
    fuzzy_search_food ratioZero [oatmealFood] "oatmel" = none ∧
    ((3 : ℚ)/5 < bestRatioOf ratioDemo ("oatmel".toLower.trim)
        [oatmealFood] 0 →
      ∃ r, fuzzy_search_food ratioDemo [oatmealFood] "oatmel" = some r ∧
        ratioDemo ("oatmel".toLower.trim) r.food_name.toLower =
          bestRatioOf ratioDemo ("oatmel".toLower.trim) [oatmealFood] 0) ∧
    (3 : ℚ)/5 < bestRatioOf ratioDemo ("oatmel".toLower.trim)
      [oatmealFood] 0 := by
  have hoat : oatmealFood.food_name.toLower = "oatmeal" := by
    with_unfolding_all rfl
  have hnoex : ∀ f ∈ [oatmealFood],
      f.food_name.toLower ≠ ("oatmel" : String).toLower.trim := by
    intro f hf
    rw [List.mem_singleton] at hf
    subst hf
    rw [hoat, show ("oatmel" : String).toLower.trim = "oatmel" from
      by with_unfolding_all rfl]
    decide
  have hnoal : ∀ f ∈ [oatmealFood],
      aliasHit f (("oatmel" : String).toLower.trim) = false := by
    intro f hf
    rw [List.mem_singleton] at hf
    subst hf
    with_unfolding_all rfl
  refine ⟨?_, ?_, ?_, ?_, ?_⟩
  · exact C7_resolver_priority.1 ratioZero [oatmealFood] "Oatmeal"
      oatmealFood (by simp) (by with_unfolding_all rfl)
      (fun r2 h2 _ => by simpa using h2)
  · refine C7_resolver_priority.2.1 ratioZero [oatmealFood] "oats"
      oatmealFood ?_ (by simp) (by with_unfolding_all rfl)
      (fun f hf _ => by simpa using hf)
    intro f hf
    rw [List.mem_singleton] at hf
    subst hf
    rw [hoat, show ("oats" : String).toLower.trim = "oats" from
      by with_unfolding_all rfl]
    decide
  · refine (C7_resolver_priority.2.2 ratioZero [oatmealFood] "oatmel"
      hnoex hnoal).2 ?_
    rw [show bestRatioOf ratioZero (("oatmel" : String).toLower.trim)
      [oatmealFood] 0 = 0 from by with_unfolding_all rfl]
    norm_num
  · exact (C7_resolver_priority.2.2 ratioDemo [oatmealFood] "oatmel"
      hnoex hnoal).1
  · rw [show bestRatioOf ratioDemo (("oatmel" : String).toLower.trim)
      [oatmealFood] 0 = 7/10 from by with_unfolding_all rfl]
    norm_num
